import Mathlib

/-!
Verification of `app.py` (songweaver-ai): a script that generates song
lyrics from keywords via a pretrained text-generation pipeline and a
random melody written to a MIDI file.

Strings are modelled as `List Char` (Python strings are sequences of code
points, and `len`, slicing and `str.strip` act on code points).  The
process-global random generator of the `random` module is modelled as a
stream of naturals together with a position; `random.choice` reads the
next value of the stream.  The filesystem is a partial map from filenames
to byte lists; MIDI serialization is an uninterpreted parameter.  The
text-generation model is an uninterpreted function from the sampler
arguments to a result.
-/

namespace Songweaver

abbrev Str := List Char

/-- Python `sep.join(xs)`: the elements of `xs` concatenated with `sep`
between consecutive elements (empty string for the empty list). -/
def pyJoin (sep : Str) : List Str → Str
  | [] => []
  | [x] => x
  | x :: y :: xs => x ++ sep ++ pyJoin sep (y :: xs)

/-- `prompt = "Write a song about " + ", ".join(keywords) + ":\n"`
(app.py line 25). -/
def prompt (keywords : List Str) : Str :=
  "Write a song about ".toList ++ pyJoin ", ".toList keywords ++ ":\n".toList

/-- Python `s.strip()`: remove leading and trailing whitespace. -/
def pyStrip (s : Str) : Str :=
  ((s.dropWhile Char.isWhitespace).reverse.dropWhile Char.isWhitespace).reverse

/-- Python `s.split()` with no separator: maximal runs of non-whitespace
characters, with whitespace runs discarded. -/
def pySplitWs (s : Str) : List Str :=
  match s with
  | [] => []
  | c :: cs =>
    if c.isWhitespace then pySplitWs cs
    else ((c :: cs).takeWhile (fun a => !a.isWhitespace)) ::
         pySplitWs ((c :: cs).dropWhile (fun a => !a.isWhitespace))
termination_by s.length
decreasing_by
  · simp
  · rename_i h
    rw [List.dropWhile_cons]
    have hle := (List.dropWhile_sublist (l := cs)
      (fun a => !a.isWhitespace)).length_le
    simp only [Bool.not_eq_true] at h
    simp [h]
    omega

/-- The keyword-argument record of the `generator(...)` call
(app.py lines 35-44).  `temperature` and `top_p` are reals in Python;
they are modelled as rationals. -/
structure SamplerArgs where
  promptArg : Str
  max_length : Nat
  num_return_sequences : Nat
  temperature : ℚ
  do_sample : Bool
  top_k : Nat
  top_p : ℚ
  eos_token_id : Option Nat
deriving Repr, DecidableEq

/-- The argument record `generate_lyrics` passes to the text-generation
pipeline: `max_length=len(prompt.split()) + max_length`,
`num_return_sequences=1`, `do_sample=True`, `top_k=50`, `top_p=0.95`,
`eos_token_id=None` (app.py lines 35-44). -/
def generatorCall (keywords : List Str) (max_length : Nat) (temperature : ℚ) :
    SamplerArgs :=
  let p := prompt keywords
  { promptArg := p
    max_length := (pySplitWs p).length + max_length
    num_return_sequences := 1
    temperature := temperature
    do_sample := true
    top_k := 50
    top_p := 95 / 100
    eos_token_id := none }

/-- The pure tail of `generate_lyrics` given the text the model returned:
`generated[0]["generated_text"][len(prompt):].strip()`
(app.py lines 47-49). -/
def generate_lyrics (keywords : List Str) (generated_text : Str) : Str :=
  let p := prompt keywords
  pyStrip (generated_text.drop p.length)

/-- `generate_lyrics` with the model call made explicit and fallible: the
model is invoked on the sampler arguments built from the prompt; an
exception from the pipeline propagates unchanged (no `try`/`except` in
app.py lines 22-49). -/
def generate_lyrics_run (keywords : List Str) (max_length : Nat)
    (temperature : ℚ) (model : SamplerArgs → Except ε Str) : Except ε Str :=
  match model (generatorCall keywords max_length temperature) with
  | .error e => .error e
  | .ok text => .ok (pyStrip (text.drop (prompt keywords).length))

/-- The process-global generator of Python's `random` module: a stream of
draws and the current position. -/
structure Rng where
  stream : Nat → Nat
  pos : Nat

/-- `random.choice(l)`: pick the element indexed by the next draw (reduced
modulo the length) and advance the generator. -/
def randChoice (l : List Nat) (g : Rng) : Nat × Rng :=
  (l.getD (g.stream g.pos % l.length) 0, ⟨g.stream, g.pos + 1⟩)

/-- The C major scale of app.py line 64. -/
def scale : List Nat := [60, 62, 64, 65, 67, 69, 71, 72]

/-- One note event added by `midi.addNote(track, channel, pitch, time + i,
duration, volume)` (app.py line 68). -/
structure NoteEvent where
  track : Nat
  channel : Nat
  pitch : Nat
  time : Nat
  duration : Nat
  volume : Nat
deriving Repr, DecidableEq

/-- The in-memory `MIDIFile` object: number of tracks, the tempo events
added by `addTempo`, and the note events added by `addNote`, in order. -/
structure MIDIFile where
  numTracks : Nat
  tempos : List (Nat × Nat × Nat)
  notes : List NoteEvent
deriving Repr, DecidableEq

/-- Filesystem: filenames to byte lists (`none` = no such file). -/
abbrev FS := String → Option (List Nat)

/-- The loop `for i in range(num_notes): pitch = random.choice(scale);
midi.addNote(track, channel, pitch, time + i, duration, volume)` with
`track = channel = time = 0`, `duration = 1`, `volume = 100`
(app.py lines 54-68), over the list of loop indices. -/
def buildNotes : List Nat → Rng → List NoteEvent × Rng
  | [], g => ([], g)
  | i :: rest, g =>
    let pg := randChoice scale g
    let nsg := buildNotes rest pg.2
    (⟨0, 0, pg.1, 0 + i, 1, 100⟩ :: nsg.1, nsg.2)

/-- `generate_melody(filename, num_notes, tempo)` (app.py lines 52-71):
build a 1-track `MIDIFile`, add a tempo event at time 0, add `num_notes`
random notes, and write the serialized file to `filename` in
write-binary mode (creating or truncating it).  Returns the MIDI object,
the advanced generator, and the updated filesystem.  `num_notes` is an
`Int` because the CLI parser accepts any integer; `range(n)` iterates
`max n 0` times. -/
def generate_melody (filename : String) (num_notes : Int) (tempo : Nat)
    (g : Rng) (fs : FS) (serialize : MIDIFile → List Nat) :
    MIDIFile × Rng × FS :=
  let ng := buildNotes (List.range num_notes.toNat) g
  let midi : MIDIFile := { numTracks := 1, tempos := [(0, 0, tempo)], notes := ng.1 }
  (midi, ng.2, fun name => if name = filename then some (serialize midi) else fs name)

/-- `generate_melody` with the file write made fallible: an exception
from `open(filename, "wb")`/`writeFile` propagates unchanged (no
`try`/`except` in app.py lines 52-71). -/
def generate_melody_run (filename : String) (num_notes : Int) (tempo : Nat)
    (g : Rng) (serialize : MIDIFile → List Nat)
    (write : String → List Nat → Except ε FS) :
    Except ε (MIDIFile × Rng × FS) :=
  let ng := buildNotes (List.range num_notes.toNat) g
  let midi : MIDIFile := { numTracks := 1, tempos := [(0, 0, tempo)], notes := ng.1 }
  match write filename (serialize midi) with
  | .error e => .error e
  | .ok fs => .ok (midi, ng.2, fs)

/-- Types argparse can convert to. -/
inductive ArgType | tInt | tFloat | tStr
deriving Repr, DecidableEq

/-- A default value of a CLI option. -/
inductive ArgDefault
  | dInt (n : Int)
  | dFloat (q : ℚ)
  | dStr (s : String)
  | dNone
deriving Repr, DecidableEq

/-- One `parser.add_argument(...)` declaration. -/
structure ArgSpec where
  name : String
  positional : Bool
  nargsOneOrMore : Bool
  ty : ArgType
  deflt : ArgDefault
deriving Repr, DecidableEq

/-- The five `add_argument` calls of `main` (app.py lines 76-103):
positional `keywords` with `nargs="+"`, then the four options with their
types and defaults (an option without `type=` is a string). -/
def cliArgs : List ArgSpec :=
  [ ⟨"keywords", true, true, .tStr, .dNone⟩,
    ⟨"--lyrics-length", false, false, .tInt, .dInt 120⟩,
    ⟨"--melody-notes", false, false, .tInt, .dInt 16⟩,
    ⟨"--output-melody", false, false, .tStr, .dStr "melody.mid"⟩,
    ⟨"--temperature", false, false, .tFloat, .dFloat 1⟩ ]

/-- The parsed argument namespace used by `main`. -/
structure ParsedArgs where
  keywords : List Str
  lyricsLength : Nat
  melodyNotes : Int
  outputMelody : String
  temperature : ℚ

/-- The default of `generate_melody`'s `tempo` parameter (app.py line 52). -/
def tempoDefault : Nat := 120

/-- The melody step of `main`:
`generate_melody(args.output_melody, args.melody_notes)` (app.py line
107) — the call omits `tempo`, so the parameter default applies. -/
def main_melody (args : ParsedArgs) (g : Rng) (fs : FS)
    (serialize : MIDIFile → List Nat) : MIDIFile × Rng × FS :=
  generate_melody args.outputMelody args.melodyNotes tempoDefault g fs serialize

/-- Spec-side description of the lyrics result: "the model's generated
text with the prompt prefix removed (the characters after the prompt's
length) and leading/trailing whitespace trimmed". -/
def lyricsSpec (keywords : List Str) (generated_text : Str) : Str :=
  pyStrip (List.drop (prompt keywords).length generated_text)

end Songweaver

namespace Songweaver

/-! ### Helper lemmas about the melody generator -/

theorem getD_mod_mem (l : List Nat) (h : l ≠ []) (k : Nat) :
    l.getD (k % l.length) 0 ∈ l := by
  have hl : 0 < l.length := List.length_pos.mpr h
  have hk : k % l.length < l.length := Nat.mod_lt _ hl
  rw [List.getD_eq_getElem?_getD, List.getElem?_eq_getElem hk, Option.getD_some]
  exact List.getElem_mem hk

theorem randChoice_mem (g : Rng) : (randChoice scale g).1 ∈ scale :=
  getD_mod_mem scale (by simp [scale]) _

theorem buildNotes_length (l : List Nat) (g : Rng) :
    (buildNotes l g).1.length = l.length := by
  induction l generalizing g with
  | nil => rfl
  | cons i rest ih => simp [buildNotes, ih]

theorem buildNotes_map_time (l : List Nat) (g : Rng) :
    (buildNotes l g).1.map (fun nt => nt.time) = l := by
  induction l generalizing g with
  | nil => rfl
  | cons i rest ih => simp [buildNotes, ih]

theorem buildNotes_mem (l : List Nat) (g : Rng) :
    ∀ nt ∈ (buildNotes l g).1, nt.track = 0 ∧ nt.channel = 0 ∧
      nt.pitch ∈ scale ∧ nt.duration = 1 ∧ nt.volume = 100 := by
  induction l generalizing g with
  | nil => intro nt hnt; simp [buildNotes] at hnt
  | cons i rest ih =>
    intro nt hnt
    simp only [buildNotes, List.mem_cons] at hnt
    rcases hnt with h | h
    · subst h
      exact ⟨rfl, rfl, randChoice_mem g, rfl, rfl⟩
    · exact ih _ nt h

theorem buildNotes_rng (l : List Nat) (g : Rng) :
    (buildNotes l g).2 = ⟨g.stream, g.pos + l.length⟩ := by
  induction l generalizing g with
  | nil => simp [buildNotes]
  | cons i rest ih => simp [buildNotes, randChoice, ih, Nat.add_assoc, Nat.add_comm 1]

end Songweaver

namespace Songweaver

/-! ### Helper lemmas about strings and stripping -/

theorem pyStrip_within (s : Str) : pyStrip s <:+: s := by
  have h1 : s.dropWhile Char.isWhitespace <:+ s := List.dropWhile_suffix _
  have h2 : (s.dropWhile Char.isWhitespace).reverse.dropWhile Char.isWhitespace
      <:+ (s.dropWhile Char.isWhitespace).reverse := List.dropWhile_suffix _
  have h3 : pyStrip s <+: s.dropWhile Char.isWhitespace := by
    have := List.reverse_prefix.mpr h2
    simpa [pyStrip] using this
  exact h3.isInfix.trans h1.isInfix

theorem head?_dropWhile_false {p : Char → Bool} {l : Str} {c : Char}
    (h : (l.dropWhile p).head? = some c) : p c = false := by
  induction l with
  | nil => simp at h
  | cons a as ih =>
    rw [List.dropWhile_cons] at h
    by_cases ha : p a = true
    · exact ih (by simpa [ha] using h)
    · rw [if_neg ha, List.head?_cons] at h
      have hac : a = c := by injection h
      subst hac
      simpa using ha

theorem head?_of_pre {l₁ l₂ : Str} {c : Char} (hp : l₁ <+: l₂)
    (h : l₁.head? = some c) : l₂.head? = some c := by
  rcases hp with ⟨t, rfl⟩
  rw [List.head?_append, h]
  rfl

theorem pyStrip_prefix_dropWhile (s : Str) :
    pyStrip s <+: s.dropWhile Char.isWhitespace := by
  have h2 : (s.dropWhile Char.isWhitespace).reverse.dropWhile Char.isWhitespace
      <:+ (s.dropWhile Char.isWhitespace).reverse := List.dropWhile_suffix _
  have := List.reverse_prefix.mpr h2
  simpa [pyStrip] using this

theorem pyStrip_head {s : Str} {c : Char} (h : (pyStrip s).head? = some c) :
    c.isWhitespace = false :=
  head?_dropWhile_false (head?_of_pre (pyStrip_prefix_dropWhile s) h)

theorem pyStrip_getLast {s : Str} {c : Char}
    (h : (pyStrip s).getLast? = some c) : c.isWhitespace = false := by
  unfold pyStrip at h
  rw [List.getLast?_reverse] at h
  exact head?_dropWhile_false h

end Songweaver

namespace Songweaver

theorem pyJoin_eq_intercalate (sep : Str) (l : List Str) :
    pyJoin sep l = List.intercalate sep l := by
  induction l with
  | nil => simp [pyJoin, List.intercalate]
  | cons x xs ih =>
    cases xs with
    | nil => simp [pyJoin, List.intercalate]
    | cons y ys =>
      rw [pyJoin, ih]
      simp [List.intercalate, List.intersperse_cons_cons]

end Songweaver

namespace Songweaver

/-! ### Claim theorems -/

/-- C1: for every positive `N`, `generate_melody` with `num_notes = N`
writes a MIDI file whose melody holds exactly `N` note events, each pitch
drawn from the scale {60,62,64,65,67,69,71,72}, with start times
`0, 1, ..., N-1` (note `i` at time `i`), every note of duration 1 and
constant velocity (100). -/
theorem melody_note_events (f : String) (N : Int) (t : Nat) (g : Rng)
    (fs : FS) (ser : MIDIFile → List Nat) (hN : 0 < N) :
    ((generate_melody f N t g fs ser).1.notes).length = N.toNat ∧
    ((N.toNat : Int) = N) ∧
    ((generate_melody f N t g fs ser).1.notes).map (fun nt => nt.time) =
      List.range N.toNat ∧
    (∀ nt ∈ (generate_melody f N t g fs ser).1.notes,
      nt.pitch ∈ scale ∧ nt.duration = 1 ∧ nt.volume = 100) ∧
    (generate_melody f N t g fs ser).2.2 f =
      some (ser (generate_melody f N t g fs ser).1) := by
  refine ⟨?_, ?_, ?_, ?_, ?_⟩
  · simp [generate_melody, buildNotes_length]
  · omega
  · simp [generate_melody, buildNotes_map_time]
  · intro nt hnt
    have h := buildNotes_mem (List.range N.toNat) g nt
      (by simpa [generate_melody] using hnt)
    exact ⟨h.2.2.1, h.2.2.2.1, h.2.2.2.2⟩
  · simp [generate_melody]

/-- C1 witness: instantiation at `N = 3` with a concrete generator,
filesystem and serializer. -/
theorem melody_note_events_witness :
    (0 : Int) < 3 ∧
    (((generate_melody "melody.mid" 3 120 ⟨fun k => k, 0⟩ (fun _ => none)
        (fun _ => [])).1.notes).length = (3 : Int).toNat ∧
    (((3 : Int).toNat : Int) = 3) ∧
    ((generate_melody "melody.mid" 3 120 ⟨fun k => k, 0⟩ (fun _ => none)
        (fun _ => [])).1.notes).map (fun nt => nt.time) =
      List.range (3 : Int).toNat ∧
    (∀ nt ∈ (generate_melody "melody.mid" 3 120 ⟨fun k => k, 0⟩
        (fun _ => none) (fun _ => [])).1.notes,
      nt.pitch ∈ scale ∧ nt.duration = 1 ∧ nt.volume = 100) ∧
    (generate_melody "melody.mid" 3 120 ⟨fun k => k, 0⟩ (fun _ => none)
        (fun _ => [])).2.2 "melody.mid" =
      some ((fun _ => []) (generate_melody "melody.mid" 3 120 ⟨fun k => k, 0⟩
        (fun _ => none) (fun _ => [])).1)) :=
  ⟨by decide,
   melody_note_events "melody.mid" 3 120 ⟨fun k => k, 0⟩ (fun _ => none)
     (fun _ => []) (by decide)⟩

/-- C6: melody generation is deterministic given the random-generator
state: two runs from equal states with the same arguments produce
identical results; and regardless of the generator, every produced pitch
lies in the fixed scale. -/
theorem melody_deterministic (f : String) (N : Int) (t : Nat)
    (g₁ g₂ : Rng) (fs : FS) (ser : MIDIFile → List Nat) (h : g₁ = g₂) :
    generate_melody f N t g₁ fs ser = generate_melody f N t g₂ fs ser ∧
    ∀ nt ∈ (generate_melody f N t g₁ fs ser).1.notes, nt.pitch ∈ scale := by
  subst h
  refine ⟨rfl, ?_⟩
  intro nt hnt
  exact (buildNotes_mem (List.range N.toNat) g₁ nt
    (by simpa [generate_melody] using hnt)).2.2.1

/-- C6 witness: instantiation at `N = 2` with a concrete generator state. -/
theorem melody_deterministic_witness :
    generate_melody "m.mid" 2 120 ⟨fun k => k + 5, 0⟩ (fun _ => none)
        (fun _ => []) =
      generate_melody "m.mid" 2 120 ⟨fun k => k + 5, 0⟩ (fun _ => none)
        (fun _ => []) ∧
    ∀ nt ∈ (generate_melody "m.mid" 2 120 ⟨fun k => k + 5, 0⟩ (fun _ => none)
        (fun _ => [])).1.notes, nt.pitch ∈ scale :=
  melody_deterministic "m.mid" 2 120 ⟨fun k => k + 5, 0⟩ ⟨fun k => k + 5, 0⟩
    (fun _ => none) (fun _ => []) rfl

/-- C9: for `num_notes ≤ 0` the note loop runs zero times: no note events
are added, the generator is untouched, and a MIDI file holding only the
tempo event is still written to the given path. -/
theorem melody_nonpositive_notes (f : String) (N : Int) (t : Nat) (g : Rng)
    (fs : FS) (ser : MIDIFile → List Nat) (hN : N ≤ 0) :
    (generate_melody f N t g fs ser).1.notes = [] ∧
    (generate_melody f N t g fs ser).1.tempos = [(0, 0, t)] ∧
    (generate_melody f N t g fs ser).2.1 = g ∧
    (generate_melody f N t g fs ser).2.2 f =
      some (ser (generate_melody f N t g fs ser).1) := by
  have h0 : N.toNat = 0 := by omega
  refine ⟨?_, ?_, ?_, ?_⟩ <;> simp [generate_melody, h0, buildNotes]

/-- C9 witness: instantiation at `N = -1`. -/
theorem melody_nonpositive_notes_witness :
    (-1 : Int) ≤ 0 ∧
    ((generate_melody "m.mid" (-1) 120 ⟨fun k => k, 0⟩ (fun _ => none)
        (fun _ => [7])).1.notes = [] ∧
    (generate_melody "m.mid" (-1) 120 ⟨fun k => k, 0⟩ (fun _ => none)
        (fun _ => [7])).1.tempos = [(0, 0, 120)] ∧
    (generate_melody "m.mid" (-1) 120 ⟨fun k => k, 0⟩ (fun _ => none)
        (fun _ => [7])).2.1 = ⟨fun k => k, 0⟩ ∧
    (generate_melody "m.mid" (-1) 120 ⟨fun k => k, 0⟩ (fun _ => none)
        (fun _ => [7])).2.2 "m.mid" =
      some ((fun _ => [7]) (generate_melody "m.mid" (-1) 120 ⟨fun k => k, 0⟩
        (fun _ => none) (fun _ => [7])).1)) :=
  ⟨by decide,
   melody_nonpositive_notes "m.mid" (-1) 120 ⟨fun k => k, 0⟩ (fun _ => none)
     (fun _ => [7]) (by decide)⟩

end Songweaver

namespace Songweaver

/-- C10 counterexample: `generate_melody` does modify program state other
than the target file — drawing a pitch advances the process-global random
generator — so at a concrete path holding an existing file, the generator
after the call differs from the generator before it. -/
theorem melody_rng_changed :
    ¬ ((generate_melody "melody.mid" 1 120 ⟨fun k => k, 0⟩
        (fun n => if n = "melody.mid" then some [0] else none)
        (fun _ => [])).2.1 = ⟨fun k => k, 0⟩) := by
  intro h
  have hpos := congrArg Rng.pos h
  rw [generate_melody] at hpos
  simp [buildNotes_rng] at hpos

/-- C10 amended: writing opens the path in write mode with no existence
check, so an existing file's contents are entirely replaced by the newly
serialized MIDI data; no other file is modified, and the only other state
change is the random generator advancing by `num_notes` draws. -/
theorem melody_overwrites_file (f : String) (N : Int) (t : Nat) (g : Rng)
    (fs : FS) (ser : MIDIFile → List Nat) (old : List Nat)
    (_hex : fs f = some old) :
    (generate_melody f N t g fs ser).2.2 f =
      some (ser (generate_melody f N t g fs ser).1) ∧
    (∀ other : String, other ≠ f →
      (generate_melody f N t g fs ser).2.2 other = fs other) ∧
    (generate_melody f N t g fs ser).2.1 = ⟨g.stream, g.pos + N.toNat⟩ := by
  refine ⟨?_, ?_, ?_⟩
  · simp [generate_melody]
  · intro other hne
    simp [generate_melody, hne]
  · simp [generate_melody, buildNotes_rng]

/-- C10 witness: instantiation at a path that holds an existing file. -/
theorem melody_overwrites_file_witness :
    (fun n => if n = "melody.mid" then some [0] else none : FS) "melody.mid"
        = some [0] ∧
    ((generate_melody "melody.mid" 1 120 ⟨fun k => k, 0⟩
        (fun n => if n = "melody.mid" then some [0] else none)
        (fun _ => [9])).2.2 "melody.mid" =
      some ((fun _ => [9]) (generate_melody "melody.mid" 1 120 ⟨fun k => k, 0⟩
        (fun n => if n = "melody.mid" then some [0] else none)
        (fun _ => [9])).1) ∧
    (∀ other : String, other ≠ "melody.mid" →
      (generate_melody "melody.mid" 1 120 ⟨fun k => k, 0⟩
        (fun n => if n = "melody.mid" then some [0] else none)
        (fun _ => [9])).2.2 other =
      (fun n => if n = "melody.mid" then some [0] else none : FS) other) ∧
    (generate_melody "melody.mid" 1 120 ⟨fun k => k, 0⟩
        (fun n => if n = "melody.mid" then some [0] else none)
        (fun _ => [9])).2.1 = ⟨fun k => k, 0 + (1 : Int).toNat⟩) :=
  ⟨by decide,
   melody_overwrites_file "melody.mid" 1 120 ⟨fun k => k, 0⟩
     (fun n => if n = "melody.mid" then some [0] else none)
     (fun _ => [9]) [0] (by decide)⟩

end Songweaver

namespace Songweaver

/-- C2 counterexample: the code removes only the first `len(prompt)`
characters of the model output, so when the model's continuation repeats
the prompt the returned lyrics do contain the literal prompt prefix.
Here the keyword list is `["a"]` and the model output is the prompt
followed by the prompt again and `"x"`. -/
theorem lyrics_contains_prompt_cexample :
    prompt ["a".toList] <:+:
      generate_lyrics ["a".toList]
        (prompt ["a".toList] ++ (prompt ["a".toList] ++ ['x'])) := by
  decide

/-- C2 amended: the lyrics never contain the literal prompt prefix
provided the model's continuation beyond the echoed prompt does not
itself contain the prompt text; the echoed prefix itself is always
removed. -/
theorem lyrics_no_prompt (kws : List Str) (rest : Str)
    (h : ¬ prompt kws <:+: rest) :
    ¬ prompt kws <:+: generate_lyrics kws (prompt kws ++ rest) := by
  intro hin
  apply h
  have hdrop : (prompt kws ++ rest).drop (prompt kws).length = rest :=
    List.drop_left _ _
  have heq : generate_lyrics kws (prompt kws ++ rest) = pyStrip rest := by
    rw [generate_lyrics, hdrop]
  rw [heq] at hin
  exact hin.trans (pyStrip_within rest)

/-- C2 witness: instantiation at keywords `["a"]` and a continuation that
does not repeat the prompt. -/
theorem lyrics_no_prompt_witness :
    ¬ prompt ["a".toList] <:+: "hello".toList ∧
    ¬ prompt ["a".toList] <:+:
      generate_lyrics ["a".toList] (prompt ["a".toList] ++ "hello".toList) :=
  ⟨by decide, lyrics_no_prompt ["a".toList] "hello".toList (by decide)⟩

end Songweaver

namespace Songweaver

/-- C3: `generate_lyrics` returns exactly the model's generated text with
the first `len(prompt)` characters removed and leading/trailing
whitespace trimmed; consequently the result never starts or ends with a
whitespace character. -/
theorem lyrics_eq_spec (kws : List Str) (text : Str) :
    generate_lyrics kws text = lyricsSpec kws text ∧
    (Option.all (fun c => !c.isWhitespace)
      (generate_lyrics kws text).head? = true) ∧
    (Option.all (fun c => !c.isWhitespace)
      (generate_lyrics kws text).getLast? = true) := by
  refine ⟨rfl, ?_, ?_⟩
  · rcases hh : (generate_lyrics kws text).head? with _ | c
    · rfl
    · have : c.isWhitespace = false := pyStrip_head hh
      simp [Option.all, this]
  · rcases hh : (generate_lyrics kws text).getLast? with _ | c
    · rfl
    · have : c.isWhitespace = false := pyStrip_getLast hh
      simp [Option.all, this]

/-- C4: the prompt handed to the text-generation model is exactly
`"Write a song about "` followed by the keywords joined with `", "`
followed by `":\n"`. -/
theorem prompt_eq_spec (kws : List Str) :
    prompt kws = "Write a song about ".toList ++
      List.intercalate ", ".toList kws ++ ":\n".toList ∧
    (generatorCall kws 120 1).promptArg = "Write a song about ".toList ++
      List.intercalate ", ".toList kws ++ ":\n".toList := by
  have h : prompt kws = "Write a song about ".toList ++
      List.intercalate ", ".toList kws ++ ":\n".toList := by
    rw [prompt, pyJoin_eq_intercalate]
  exact ⟨h, h⟩

/-- C5: the sampler is invoked requesting a total token count equal to
the number of whitespace-separated words of the prompt plus the requested
length, with sampling enabled, `top_k = 50` and `top_p = 0.95`. -/
theorem generator_call_args (kws : List Str) (L : Nat) (T : ℚ) :
    (generatorCall kws L T).max_length = (pySplitWs (prompt kws)).length + L ∧
    (generatorCall kws L T).do_sample = true ∧
    (generatorCall kws L T).top_k = 50 ∧
    (generatorCall kws L T).top_p = 95 / 100 ∧
    (generatorCall kws L T).num_return_sequences = 1 ∧
    (generatorCall kws L T).temperature = T :=
  ⟨rfl, rfl, rfl, rfl, rfl, rfl⟩

/-- C7: the CLI declares positional `keywords` (one or more) and exactly
the options `--lyrics-length` (int, default 120), `--melody-notes`
(int, default 16), `--output-melody` (string, default `"melody.mid"`),
`--temperature` (float, default 1.0); no `--tempo` option exists, and the
melody step of `main` always runs with the tempo default 120. -/
theorem cli_defaults :
    cliArgs = [⟨"keywords", true, true, .tStr, .dNone⟩,
      ⟨"--lyrics-length", false, false, .tInt, .dInt 120⟩,
      ⟨"--melody-notes", false, false, .tInt, .dInt 16⟩,
      ⟨"--output-melody", false, false, .tStr, .dStr "melody.mid"⟩,
      ⟨"--temperature", false, false, .tFloat, .dFloat 1⟩] ∧
    (cliArgs.all (fun a => a.name != "--tempo")) = true ∧
    ∀ (args : ParsedArgs) (g : Rng) (fs : FS) (ser : MIDIFile → List Nat),
      (main_melody args g fs ser).1.tempos = [(0, 0, 120)] := by
  refine ⟨rfl, by decide, ?_⟩
  intro args g fs ser
  simp [main_melody, generate_melody, tempoDefault]

/-- C8: a failure of the model pipeline inside `generate_lyrics`, and a
failure of the file open/write inside `generate_melody`, each propagate
to the caller unchanged — there is no catching, wrapping or retrying. -/
theorem errors_propagate (ε : Type) (kws : List Str) (L : Nat) (T : ℚ)
    (model : SamplerArgs → Except ε Str) (e : ε)
    (hm : model (generatorCall kws L T) = .error e)
    (f : String) (N : Int) (t : Nat) (g : Rng) (ser : MIDIFile → List Nat)
    (write : String → List Nat → Except ε FS) (e' : ε)
    (hw : ∀ bytes, write f bytes = .error e') :
    generate_lyrics_run kws L T model = .error e ∧
    generate_melody_run f N t g ser write = .error e' := by
  constructor
  · rw [generate_lyrics_run, hm]
  · rw [generate_melody_run, hw]

/-- C8 witness: a model that always raises and a write that always
raises, at concrete arguments. -/
theorem errors_propagate_witness :
    generate_lyrics_run ["a".toList] 120 1
      (fun _ => (.error 7 : Except Nat Str)) = .error 7 ∧
    generate_melody_run "m.mid" 2 120 ⟨fun k => k, 0⟩ (fun _ => [])
      (fun _ _ => (.error 9 : Except Nat FS)) = .error 9 :=
  errors_propagate Nat ["a".toList] 120 1 (fun _ => .error 7) 7 rfl
    "m.mid" 2 120 ⟨fun k => k, 0⟩ (fun _ => [])
    (fun _ _ => .error 9) 9 (fun _ => rfl)

end Songweaver
